import Mathlib

/-
Verification of the django-polls voting service against its specification.

The development shallowly embeds the admission, identity and statistics
logic of the repository:
  - polls/util.py        : get_client_ip, get_user, IPAuthentication
  - polls/api.py         : VoteResource.obj_create, VoteResource.obj_update,
                           the exception-to-HTTP mapping
  - polls/views.py       : PollVoteView.post
  - polls/migrations/    : the unique_together declarations for the vote table
The model layer (Poll.vote, Poll.already_voted, Poll.get_stats,
Vote.change_vote in polls/models.py) is not part of the available sources;
those operations are modelled from the specification, as marked in their
doc comments.

Machine conventions: timestamps are Nat, identities are usernames (String),
the vote store is a List of vote rows, float statistics are Rat.
-/

/-- Poll record, fields from migrations 0001 and 0002. -/
structure Poll where
  id : Nat
  reference : String
  question : String
  is_anonymous : Bool
  is_multiple : Bool
  is_closed : Bool
  allow_multi_votes : Bool
  start_votes : Nat
  end_votes : Nat
  deriving Repr, DecidableEq

/-- Choice record, fields from migration 0001 (choice is the display text,
code the short code; poll is the owning poll id). -/
structure Choice where
  id : Nat
  poll : Nat
  choice : String
  code : String
  deriving Repr, DecidableEq

/-- Vote row: poll id, choice id, identity username, and a submission tag
grouping the rows written by one submission (identity plus creation time). -/
structure Vote where
  poll : Nat
  choice : Nat
  user : String
  submission : Nat
  deriving Repr, DecidableEq

/-- Typed failure outcomes of the voting engine, from polls/exceptions.py
plus the already-voted rejection of VoteResource.obj_create. -/
inductive VoteFailure where
  | PollClosed
  | PollNotOpen
  | PollNotAnonymous
  | PollNotMultiple
  | InvalidChoice
  | AlreadyVoted
  deriving Repr, DecidableEq

/-- HTTP response classes the transport layer uses in api.py and views.py. -/
inductive HttpResp where
  | created
  | forbidden
  | badRequest
  | unauthorized
  deriving Repr, DecidableEq

/-- Transport mapping of VoteResource.obj_create in api.py: the except
clauses map PollClosed, PollNotOpen, PollNotAnonymous and PollNotMultiple to
HttpForbidden, PollInvalidChoice to HttpBadRequest, and the already-voted
branch raises HttpForbidden. -/
def transportStatus : VoteFailure → HttpResp
  | .PollClosed => .forbidden
  | .PollNotOpen => .forbidden
  | .PollNotAnonymous => .forbidden
  | .PollNotMultiple => .forbidden
  | .InvalidChoice => .badRequest
  | .AlreadyVoted => .forbidden

/-- Unique constraints on the vote table declared by migration 0001_initial:
AlterUniqueTogether(vote, {(user, poll, choice)}). -/
def voteUniqueTogether0001 : List (List String) := [["user", "poll", "choice"]]

/-- Unique constraints on the vote table after migration 0003_auto_20160424_1140:
AlterUniqueTogether(vote, set()), removing every unique constraint. -/
def voteUniqueTogether0003 : List (List String) := []

/-- A set of unique_together declarations enforces uniqueness of the
(poll, user) pair exactly when some declared column set is nonempty and
contained in {poll, user}. -/
def enforcesPollUserUnique (uts : List (List String)) : Prop :=
  ∃ cols ∈ uts, cols ≠ [] ∧ ∀ c ∈ cols, c = "poll" ∨ c = "user"

instance : DecidablePred enforcesPollUserUnique := fun uts =>
  List.decidableBEx _ uts

/-- Request context: the verified-credential flag and account username as
established by the authentication chain, the forwarded-for header, the peer
address, and the quickpollscid cookie. -/
structure Request where
  authenticated : Bool
  username : String
  http_x_forwarded_for : Option String
  remote_addr : String
  cookie_quickpollscid : Option String
  deriving Repr, DecidableEq

/-- Client IP resolution of polls/util.py get_client_ip: the last entry of a
nonempty X-Forwarded-For header, stripped, else REMOTE_ADDR. -/
def get_client_ip (r : Request) : String :=
  match r.http_x_forwarded_for with
  | some s => if s = "" then r.remote_addr else ((s.splitOn ",").getLastD "").trim
  | none => r.remote_addr

/-- Standard base64 alphabet. -/
def base64Alphabet : List Char :=
  "ABCDEFGHIJKLMNOPQRSTUVWXYZabcdefghijklmnopqrstuvwxyz0123456789+/".toList

/-- Character for a 6-bit group. -/
def b64Char (n : Nat) : Char := base64Alphabet.getD n 'A'

/-- Base64 encoding of a byte list, with padding, as in the Python base64
module used by polls/util.py. -/
def b64encodeBytes : List Nat → List Char
  | [] => []
  | [a] => [b64Char (a / 4), b64Char (a % 4 * 16), '=', '=']
  | [a, b] => [b64Char (a / 4), b64Char (a % 4 * 16 + b / 16), b64Char (b % 16 * 4), '=']
  | a :: b :: c :: rest =>
    b64Char (a / 4) :: b64Char (a % 4 * 16 + b / 16) ::
      b64Char (b % 16 * 4 + c / 64) :: b64Char (c % 64) :: b64encodeBytes rest

/-- Base64 encoding of an ASCII string, byte values taken as code points. -/
def b64encode (s : String) : String := String.mk (b64encodeBytes (s.toList.map Char.toNat))

/-- User store: the usernames of the existing auth-user rows. -/
abbrev UserStore := List String

/-- Username derivation inside polls/util.py get_user: the clientid when
given and non-falsy, else the client IP. -/
def resolve_username (r : Request) (clientid : Option String) : String :=
  match clientid with
  | some s => if s = "" then get_client_ip r else s
  | none => get_client_ip r

/-- Embedding of polls/util.py get_user: an authenticated user is returned
unchanged; for an anonymous request the username is derived by
resolve_username, and the user row is fetched when it exists, otherwise
created. Returns the resolved username and the store. -/
def get_user (r : Request) (clientid : Option String) (store : UserStore) :
    String × UserStore :=
  if r.authenticated = false then
    let username := resolve_username r clientid
    if store.contains username then (username, store)
    else (username, username :: store)
  else (r.username, store)

/-- Embedding of polls/util.py IPAuthentication.is_authenticated: when the
request user is anonymous, the quickpollscid cookie is base64-encoded when
present and nonempty, and get_user resolves the request user. -/
def ip_auth_resolve (r : Request) (store : UserStore) : String × UserStore :=
  if r.authenticated = false then
    let clientid : Option String :=
      match r.cookie_quickpollscid with
      | some c => if c = "" then some c else some (b64encode c)
      | none => none
    get_user r clientid store
  else (r.username, store)

/-- Reference to a submitted choice: numeric id or short code string, the two
runtime shapes accepted by the API. -/
inductive ChoiceRef where
  | byId (i : Nat)
  | byCode (s : String)
  deriving Repr, DecidableEq

/-- Resolution of one choice reference against the choices of a poll: exact
match on numeric id or on code, restricted to the given poll. -/
def resolveRef (p : Poll) (cs : List Choice) (r : ChoiceRef) : Option Choice :=
  match r with
  | .byId i => cs.find? (fun c => c.poll == p.id && c.id == i)
  | .byCode s => cs.find? (fun c => c.poll == p.id && c.code == s)

/-- Modelled from the spec: the ChoiceValidator contract of section 4.3,
standing in for the choice resolution of polls/models.py which is not among
the available sources. A null, missing or empty choice list fails with
InvalidChoice; each reference must resolve against the poll, and any
unresolvable reference fails the whole batch. -/
def resolveChoices (p : Poll) (cs : List Choice) (refs : List ChoiceRef) :
    Except VoteFailure (List Choice) :=
  match refs with
  | [] => .error .InvalidChoice
  | _ =>
    match refs.mapM (resolveRef p cs) with
    | some resolved => .ok resolved
    | none => .error .InvalidChoice

/-- Existence of a vote row for the given poll and identity, as queried by
Poll.already_voted and by Vote.objects.filter(poll, user).exists(). -/
def hasVoted (ledger : List Vote) (p : Poll) (user : String) : Bool :=
  ledger.any (fun v => v.poll == p.id && v.user == user)

/-- Modelled from the spec: Poll.already_voted of polls/models.py is not
among the available sources; following section 4.4 step 5, a prior
submission by the identity blocks a new one exactly when the poll does not
accept repeat submissions (allow_multi_votes false). -/
def already_voted (ledger : List Vote) (p : Poll) (user : String) : Bool :=
  hasVoted ledger p user && !p.allow_multi_votes

/-- Modelled from the spec: Poll.vote of polls/models.py is not among the
available sources; this is the cast_vote admission algorithm of section 4.4:
closure check, window check, anonymity check, choice resolution,
multiplicity check, duplicate check, then one row per resolved choice
sharing the submission tag. Returns the outcome and the resulting ledger;
every failure leaves the ledger unchanged. -/
def cast_vote (now : Nat) (p : Poll) (cs : List Choice) (hasAccount : Bool)
    (user : String) (refs : List ChoiceRef) (sub : Nat) (ledger : List Vote) :
    Except VoteFailure (List Vote) × List Vote :=
  if p.is_closed = true then (.error .PollClosed, ledger)
  else if ¬(p.start_votes ≤ now ∧ now ≤ p.end_votes) then (.error .PollNotOpen, ledger)
  else if hasAccount = false ∧ p.is_anonymous = false then (.error .PollNotAnonymous, ledger)
  else
    match resolveChoices p cs refs with
    | .error e => (.error e, ledger)
    | .ok resolved =>
      if 1 < resolved.length ∧ p.is_multiple = false then (.error .PollNotMultiple, ledger)
      else if already_voted ledger p user = true then (.error .AlreadyVoted, ledger)
      else
        let rows := resolved.map (fun c => Vote.mk p.id c.id user sub)
        (.ok rows, rows ++ ledger)

/-- Embedding of VoteResource.obj_create in polls/api.py: when
Poll.already_voted holds for the request user the call is rejected before
anything is written, otherwise Poll.vote runs (modelled by cast_vote). -/
def obj_create (now : Nat) (p : Poll) (cs : List Choice) (hasAccount : Bool)
    (user : String) (refs : List ChoiceRef) (sub : Nat) (ledger : List Vote) :
    Except VoteFailure (List Vote) × List Vote :=
  if already_voted ledger p user = true then (.error .AlreadyVoted, ledger)
  else cast_vote now p cs hasAccount user refs sub ledger

/-- Modelled from the spec: Vote.change_vote of polls/models.py is not among
the available sources; following section 4.4 amendment step 2, the prior
rows of the (poll, identity) pair are replaced by the re-resolved choice
set. -/
def change_vote (p : Poll) (cs : List Choice) (user : String)
    (refs : List ChoiceRef) (sub : Nat) (ledger : List Vote) :
    Except VoteFailure (List Vote) × List Vote :=
  match resolveChoices p cs refs with
  | .error e => (.error e, ledger)
  | .ok resolved =>
    let kept := ledger.filter (fun v => !(v.poll == p.id && v.user == user))
    let rows := resolved.map (fun c => Vote.mk p.id c.id user sub)
    (.ok rows, rows ++ kept)

/-- Embedding of VoteResource.obj_update in polls/api.py: the amendment runs
only when the poll is not anonymous and the vote owner equals the request
user, otherwise HttpForbidden (already voted) is raised, the typed
AlreadyVoted outcome, and nothing changes. -/
def obj_update (p : Poll) (cs : List Choice) (owner requestUser : String)
    (refs : List ChoiceRef) (sub : Nat) (ledger : List Vote) :
    Except VoteFailure (List Vote) × List Vote :=
  if p.is_anonymous = false ∧ owner = requestUser then
    change_vote p cs requestUser refs sub ledger
  else (.error .AlreadyVoted, ledger)

/-- Outcome of the HTML vote view. -/
inductive ViewOutcome where
  | success
  | permissionDenied
  deriving Repr, DecidableEq

/-- Embedding of PollVoteView.post in polls/views.py: any existing vote row
for the (poll, user) pair raises PermissionDenied, otherwise a vote row is
created. The poll flags are never consulted. -/
def pollVoteView_post (p : Poll) (user : String) (choiceId : Nat) (sub : Nat)
    (ledger : List Vote) : ViewOutcome × List Vote :=
  if hasVoted ledger p user = true then (.permissionDenied, ledger)
  else (.success, Vote.mk p.id choiceId user sub :: ledger)

/-- Lexicographic comparison of character lists by code point, the collation
of the text column ordering. -/
def charListLe : List Char → List Char → Bool
  | [], _ => true
  | _ :: _, [] => false
  | a :: as, b :: bs =>
    if a.toNat < b.toNat then true
    else if b.toNat < a.toNat then false
    else charListLe as bs

/-- Lexicographic comparison of strings. -/
def strLe (s t : String) : Bool := charListLe s.toList t.toList

/-- Ordering of the choices of one poll, from Choice.Meta.ordering =
[poll, choice] in migration 0001: by poll id, then by choice display text. -/
def choiceLe (a b : Choice) : Bool :=
  decide (a.poll < b.poll) || (a.poll == b.poll && strLe a.choice b.choice)

/-- Insertion into a list sorted by choiceLe. -/
def insertSorted (c : Choice) : List Choice → List Choice
  | [] => [c]
  | d :: ds => if choiceLe c d = true then c :: d :: ds else d :: insertSorted c ds

/-- Insertion sort by choiceLe, realising the declared choice ordering. -/
def sortChoices : List Choice → List Choice
  | [] => []
  | c :: cs => insertSorted c (sortChoices cs)

/-- Stats snapshot returned for a poll, section 4.6 shape. -/
structure Stats where
  labels : List String
  codes : List String
  votes : Nat
  values : List Rat
  deriving Repr, DecidableEq

/-- Modelled from the spec: Poll.get_stats of polls/models.py, called by
ResultResource.dehydrate, is not among the available sources; following
section 4.6, labels, codes and values follow the declared choice ordering,
votes counts distinct submissions, and each value is the row count of the
choice divided by votes, or zero when votes is zero. -/
def get_stats (p : Poll) (cs : List Choice) (ledger : List Vote) : Stats :=
  let ordered := sortChoices (cs.filter (fun c => c.poll == p.id))
  let rows := ledger.filter (fun v => v.poll == p.id)
  let votes := (rows.map (fun v => v.submission)).dedup.length
  { labels := ordered.map (fun c => c.choice),
    codes := ordered.map (fun c => c.code),
    votes := votes,
    values := ordered.map (fun c =>
      if votes = 0 then 0
      else ((rows.filter (fun v => v.choice == c.id)).length : Rat) / (votes : Rat)) }

/-- Concrete open anonymous single-choice poll with allow_multi_votes false,
window 0 to 100, used as a test fixture. -/
def pollAnon : Poll := ⟨1, "r", "q", true, false, false, false, 0, 100⟩

/-- The same poll with allow_multi_votes true. -/
def pollAnonMulti : Poll := { pollAnon with allow_multi_votes := true }

/-- Fixture choices of pollAnon, mirroring the test_api.py setup. -/
def ch0 : Choice := ⟨10, 1, "choice0", "choice0"⟩

def ch1 : Choice := ⟨11, 1, "choice1", "choice1"⟩

def ch2 : Choice := ⟨12, 1, "choice2", "choice2"⟩

/-- C10: in the HTML vote view, whenever a vote row already exists for the
(poll, user) pair, a new submission is rejected with PermissionDenied and
the vote store is unchanged, for either value of allow_multi_votes. -/
theorem pollVoteView_post_rejects_prior_vote (p : Poll) (user : String)
    (choiceId sub : Nat) (ledger : List Vote) (b : Bool)
    (hvoted : hasVoted ledger p user = true) :
    pollVoteView_post { p with allow_multi_votes := b } user choiceId sub ledger
      = (.permissionDenied, ledger) := by
  have h2 : hasVoted ledger { p with allow_multi_votes := b } user = true := hvoted
  simp [pollVoteView_post, h2]

/-- Witness for C10 at a concrete poll, user and store. -/
theorem pollVoteView_post_rejects_prior_vote_witness :
    pollVoteView_post { pollAnon with allow_multi_votes := true } "u" 11 3
        [Vote.mk 1 11 "u" 0]
      = (.permissionDenied, [Vote.mk 1 11 "u" 0]) :=
  pollVoteView_post_rejects_prior_vote pollAnon "u" 11 3 [Vote.mk 1 11 "u" 0] true (by decide)

/-- C9: VoteResource.obj_update amends only when the poll is not anonymous
and the request user owns the vote; in every other case it fails with the
already-voted outcome (HttpForbidden) and leaves the store unchanged. -/
theorem obj_update_owner_guard (p : Poll) (cs : List Choice)
    (owner requestUser : String) (refs : List ChoiceRef) (sub : Nat)
    (ledger : List Vote) :
    (¬(p.is_anonymous = false ∧ owner = requestUser) →
      obj_update p cs owner requestUser refs sub ledger
        = (.error .AlreadyVoted, ledger)) ∧
    ((p.is_anonymous = false ∧ owner = requestUser) →
      obj_update p cs owner requestUser refs sub ledger
        = change_vote p cs requestUser refs sub ledger) := by
  constructor
  · intro h
    simp only [obj_update, if_neg h]
  · intro h
    simp only [obj_update, if_pos h]

/-- Witness for C9: on the anonymous fixture poll an amendment by the owner
itself is still rejected. -/
theorem obj_update_owner_guard_witness :
    obj_update pollAnon [ch1] "u" "u" [ChoiceRef.byId 11] 1 [Vote.mk 1 11 "u" 0]
      = (.error .AlreadyVoted, [Vote.mk 1 11 "u" 0]) :=
  (obj_update_owner_guard pollAnon [ch1] "u" "u" [ChoiceRef.byId 11] 1
    [Vote.mk 1 11 "u" 0]).1 (by decide)

/-- C5 counterexample: the transport layer maps PollNotAnonymous to the
forbidden response, not to the unauthorized response the claim states. -/
theorem transport_not_anonymous_is_forbidden :
    transportStatus .PollNotAnonymous ≠ .unauthorized ∧
    transportStatus .PollNotAnonymous = .forbidden := by decide

/-- C5 (amended): the transport mapping of VoteResource.obj_create sends
AlreadyVoted, PollClosed, PollNotOpen, PollNotAnonymous and PollNotMultiple
to the forbidden response and InvalidChoice to the bad-request response. -/
theorem transport_failure_mapping :
    transportStatus .AlreadyVoted = .forbidden ∧
    transportStatus .PollClosed = .forbidden ∧
    transportStatus .PollNotOpen = .forbidden ∧
    transportStatus .PollNotAnonymous = .forbidden ∧
    transportStatus .PollNotMultiple = .forbidden ∧
    transportStatus .InvalidChoice = .badRequest := by decide

/-- C2 counterexample: neither the initial unique_together declaration
(user, poll, choice) nor the final state after migration 0003 (no
constraint at all) enforces uniqueness of the (poll, identity) pair. -/
theorem vote_unique_constraint_absent :
    ¬enforcesPollUserUnique voteUniqueTogether0001 ∧
    ¬enforcesPollUserUnique voteUniqueTogether0003 ∧
    voteUniqueTogether0003 = [] := by decide

/-- C2 (amended): duplicate prevention is the check-then-act gate of
VoteResource.obj_create: when allow_multi_votes is false and a vote row for
the (poll, identity) pair exists, the call fails AlreadyVoted and writes
nothing, so sequential submissions cannot duplicate a (poll, identity)
submission. -/
theorem obj_create_blocks_duplicate_submission (now : Nat) (p : Poll)
    (cs : List Choice) (hasAccount : Bool) (user : String)
    (refs : List ChoiceRef) (sub : Nat) (ledger : List Vote)
    (hamv : p.allow_multi_votes = false)
    (hvoted : hasVoted ledger p user = true) :
    obj_create now p cs hasAccount user refs sub ledger
      = (.error .AlreadyVoted, ledger) := by
  simp [obj_create, already_voted, hvoted, hamv]

/-- Witness for C2 at a concrete poll, user and store. -/
theorem obj_create_blocks_duplicate_submission_witness :
    obj_create 5 pollAnon [ch1] false "u" [ChoiceRef.byId 11] 8 [Vote.mk 1 11 "u" 7]
      = (.error .AlreadyVoted, [Vote.mk 1 11 "u" 7]) :=
  obj_create_blocks_duplicate_submission 5 pollAnon [ch1] false "u"
    [ChoiceRef.byId 11] 8 [Vote.mk 1 11 "u" 7] rfl (by decide)

/-- C7: base64-encoding the 32-character hex form of a UUID, as
IPAuthentication does for the quickpollscid cookie, yields 44 characters,
which does not fit the 30-character username limit the code comment and the
specification assume. -/
theorem b64encode_uuid_hex_overflows :
    (b64encode "0123456789abcdef0123456789abcdef").length = 44 ∧
    ¬(b64encode "0123456789abcdef0123456789abcdef").length ≤ 30 := by decide

/-- Base64 of a nonempty byte list is a nonempty character list. -/
theorem b64encodeBytes_ne_nil (a : Nat) (rest : List Nat) :
    b64encodeBytes (a :: rest) ≠ [] := by
  match rest with
  | [] => simp [b64encodeBytes]
  | [b] => simp [b64encodeBytes]
  | b :: c :: r => simp [b64encodeBytes]

/-- Base64 of a nonempty string is nonempty, so it is a truthy value for the
clientid fallback in get_user. -/
theorem b64encode_ne_empty {c : String} (h : c ≠ "") : b64encode c ≠ "" := by
  intro hc
  apply h
  have hl : b64encodeBytes (c.toList.map Char.toNat) = [] := congrArg String.data hc
  cases hlist : c.toList with
  | nil => exact String.ext (by simpa using hlist)
  | cons a rest =>
    rw [hlist] at hl
    exact absurd hl (b64encodeBytes_ne_nil a.toNat (rest.map Char.toNat))

/-- C8: get_user is idempotent for an anonymous request: a second resolution
with the same clientid and the store left by the first returns the same
username and the same store, and the resolved username is stored. -/
theorem get_user_idempotent (r : Request) (c : Option String) (store : UserStore)
    (hanon : r.authenticated = false) :
    get_user r c ((get_user r c store).2) = get_user r c store ∧
    ((get_user r c store).2).contains ((get_user r c store).1) = true := by
  by_cases hmem : resolve_username r c ∈ store
  · simp [get_user, hanon, hmem]
  · simp [get_user, hanon, hmem]

/-- Witness for C8: a concrete anonymous request resolved twice starting
from the empty user store. -/
theorem get_user_idempotent_witness :
    get_user ⟨false, "", none, "1.2.3.4", none⟩ none
        ((get_user ⟨false, "", none, "1.2.3.4", none⟩ none []).2)
      = get_user ⟨false, "", none, "1.2.3.4", none⟩ none [] ∧
    ((get_user ⟨false, "", none, "1.2.3.4", none⟩ none []).2).contains
        ((get_user ⟨false, "", none, "1.2.3.4", none⟩ none []).1) = true :=
  get_user_idempotent ⟨false, "", none, "1.2.3.4", none⟩ none [] rfl

/-- C6: identity resolution returns the authenticated account unchanged;
otherwise the identity key is the base64 of the quickpollscid cookie when a
nonempty one is supplied, and the client IP only when no cookie is there. -/
theorem identity_resolution_preference (r : Request) (store : UserStore) :
    (r.authenticated = true → ip_auth_resolve r store = (r.username, store)) ∧
    (r.authenticated = false → ∀ c : String, r.cookie_quickpollscid = some c →
      c ≠ "" → (ip_auth_resolve r store).1 = b64encode c) ∧
    (r.authenticated = false → r.cookie_quickpollscid = none →
      (ip_auth_resolve r store).1 = get_client_ip r) := by
  refine ⟨?_, ?_, ?_⟩
  · intro h
    simp [ip_auth_resolve, h]
  · intro h c hc hne
    have henc := b64encode_ne_empty hne
    simp [ip_auth_resolve, get_user, resolve_username, h, hc, hne, henc]
    split <;> rfl
  · intro h hc
    simp [ip_auth_resolve, get_user, resolve_username, h, hc]
    split <;> rfl

/-- Witness for C6: an authenticated request, an anonymous request with a
cookie token, and an anonymous request without one. -/
theorem identity_resolution_preference_witness :
    ip_auth_resolve ⟨true, "alice", none, "1.2.3.4", none⟩ [] = ("alice", []) ∧
    (ip_auth_resolve ⟨false, "", none, "1.2.3.4", some "deadbeef"⟩ []).1
      = b64encode "deadbeef" ∧
    (ip_auth_resolve ⟨false, "", none, "1.2.3.4", none⟩ []).1
      = get_client_ip ⟨false, "", none, "1.2.3.4", none⟩ :=
  ⟨(identity_resolution_preference ⟨true, "alice", none, "1.2.3.4", none⟩ []).1 rfl,
   (identity_resolution_preference ⟨false, "", none, "1.2.3.4", some "deadbeef"⟩ []).2.1
     rfl "deadbeef" rfl (by decide),
   (identity_resolution_preference ⟨false, "", none, "1.2.3.4", none⟩ []).2.2 rfl rfl⟩

/-- A single resolvable reference resolves to a singleton batch. -/
theorem resolveChoices_singleton (p : Poll) (cs : List Choice) (r : ChoiceRef)
    (c : Choice) (h : resolveRef p cs r = some c) :
    resolveChoices p cs [r] = .ok [c] := by
  simp [resolveChoices, List.mapM, List.mapM.loop, h]

/-- An admissible first submission on an open poll inserts exactly one row
for the resolved choice. Preconditions: the poll is not closed, now is in
the voting window, the identity is an account or the poll is anonymous, the
single reference resolves, and the identity has not voted yet. -/
theorem obj_create_fresh_ok (now : Nat) (p : Poll) (cs : List Choice)
    (hasAccount : Bool) (user : String) (r : ChoiceRef) (c : Choice)
    (sub : Nat) (ledger : List Vote)
    (hclosed : p.is_closed = false)
    (hwin : p.start_votes ≤ now ∧ now ≤ p.end_votes)
    (hanon : hasAccount = true ∨ p.is_anonymous = true)
    (hres : resolveRef p cs r = some c)
    (hnew : hasVoted ledger p user = false) :
    obj_create now p cs hasAccount user [r] sub ledger
      = (.ok [Vote.mk p.id c.id user sub], Vote.mk p.id c.id user sub :: ledger) := by
  have hbatch := resolveChoices_singleton p cs r c hres
  rcases hanon with h | h <;>
    simp [obj_create, cast_vote, already_voted, hbatch, hclosed, hwin.1, hwin.2,
      hnew, h]

/-- C1: on an open admissible poll, given a fresh identity, the first
submission succeeds; when allow_multi_votes is false the second submission
by the same identity fails AlreadyVoted with the store unchanged, and when
allow_multi_votes is true the second submission succeeds as well. -/
theorem obj_create_repeat_submission (now : Nat) (p : Poll) (cs : List Choice)
    (hasAccount : Bool) (user : String) (r : ChoiceRef) (c : Choice)
    (s1 s2 : Nat) (ledger : List Vote)
    (hclosed : p.is_closed = false)
    (hwin : p.start_votes ≤ now ∧ now ≤ p.end_votes)
    (hanon : hasAccount = true ∨ p.is_anonymous = true)
    (hres : resolveRef p cs r = some c)
    (hnew : hasVoted ledger p user = false) :
    (obj_create now p cs hasAccount user [r] s1 ledger).1
        = .ok [Vote.mk p.id c.id user s1] ∧
    (p.allow_multi_votes = false →
      obj_create now p cs hasAccount user [r] s2
          ((obj_create now p cs hasAccount user [r] s1 ledger).2)
        = (.error .AlreadyVoted,
            (obj_create now p cs hasAccount user [r] s1 ledger).2)) ∧
    (p.allow_multi_votes = true →
      (obj_create now p cs hasAccount user [r] s2
          ((obj_create now p cs hasAccount user [r] s1 ledger).2)).1
        = .ok [Vote.mk p.id c.id user s2]) := by
  have h1 := obj_create_fresh_ok now p cs hasAccount user r c s1 ledger
    hclosed hwin hanon hres hnew
  have hv : hasVoted (Vote.mk p.id c.id user s1 :: ledger) p user = true := by
    simp [hasVoted]
  refine ⟨by rw [h1], ?_, ?_⟩
  · intro hamv
    rw [h1]
    simp [obj_create, already_voted, hv, hamv]
  · intro hamv
    rw [h1]
    have hbatch := resolveChoices_singleton p cs r c hres
    rcases hanon with h | h <;>
      simp [obj_create, cast_vote, already_voted, hbatch, hclosed, hwin.1, hwin.2,
        hamv, h, hv]

/-- Witness for C1: the fixture poll with allow_multi_votes false rejects
the second vote of user u, and the allow_multi_votes variant accepts it. -/
theorem obj_create_repeat_submission_witness :
    obj_create 5 pollAnon [ch1] false "u" [ChoiceRef.byId 11] 2
        ((obj_create 5 pollAnon [ch1] false "u" [ChoiceRef.byId 11] 1 []).2)
      = (.error .AlreadyVoted,
          (obj_create 5 pollAnon [ch1] false "u" [ChoiceRef.byId 11] 1 []).2) ∧
    (obj_create 5 pollAnonMulti [ch1] false "u" [ChoiceRef.byId 11] 2
        ((obj_create 5 pollAnonMulti [ch1] false "u" [ChoiceRef.byId 11] 1 []).2)).1
      = .ok [Vote.mk 1 11 "u" 2] :=
  ⟨(obj_create_repeat_submission 5 pollAnon [ch1] false "u" (ChoiceRef.byId 11) ch1
      1 2 [] rfl (by decide) (Or.inr rfl) (by decide) rfl).2.1 rfl,
   (obj_create_repeat_submission 5 pollAnonMulti [ch1] false "u" (ChoiceRef.byId 11) ch1
      1 2 [] rfl (by decide) (Or.inr rfl) (by decide) rfl).2.2 rfl⟩

/-- C3: on a poll whose declared choice ordering is the three choices a, b,
c, a single submission selecting b yields labels and codes in the declared
ordering, one counted vote, and the shares 0, 1, 0. -/
theorem get_stats_single_vote_index1 (p : Poll) (cs : List Choice)
    (a b c : Choice) (user : String) (sub : Nat)
    (hsort : sortChoices (cs.filter (fun ch => ch.poll == p.id)) = [a, b, c])
    (hba : b.id ≠ a.id) (hbc : b.id ≠ c.id) :
    get_stats p cs [Vote.mk p.id b.id user sub]
      = ⟨[a.choice, b.choice, c.choice], [a.code, b.code, c.code], 1, [0, 1, 0]⟩ := by
  have hba2 : (b.id == a.id) = false := beq_eq_false_iff_ne.mpr hba
  have hbc2 : (b.id == c.id) = false := beq_eq_false_iff_ne.mpr hbc
  unfold get_stats
  rw [hsort]
  simp [List.filter, List.dedup, hba2, hbc2]

/-- Witness for C3 on the fixture poll with its three choices and one vote
for ch1, the middle choice of the declared ordering. -/
theorem get_stats_single_vote_index1_witness :
    get_stats pollAnon [ch2, ch0, ch1] [Vote.mk 1 11 "u" 0]
      = ⟨["choice0", "choice1", "choice2"], ["choice0", "choice1", "choice2"],
          1, [0, 1, 0]⟩ :=
  get_stats_single_vote_index1 pollAnon [ch2, ch0, ch1] ch0 ch1 ch2 "u" 0
    (by decide) (by decide) (by decide)

/-- C4: on a poll with no vote rows, get_stats reports zero votes and every
share equal to zero; the division branch is never taken. -/
theorem get_stats_no_votes (p : Poll) (cs : List Choice) (ledger : List Vote)
    (h : ∀ v ∈ ledger, v.poll ≠ p.id) :
    (get_stats p cs ledger).votes = 0 ∧
    ∀ x ∈ (get_stats p cs ledger).values, x = 0 := by
  have hrows : ledger.filter (fun v => v.poll == p.id) = [] := by
    rw [List.filter_eq_nil_iff]
    intro v hv
    simpa using h v hv
  constructor
  · simp [get_stats, hrows]
  · intro x hx
    simp [get_stats, hrows] at hx
    exact hx.2

/-- Witness for C4 on the fixture poll with its three choices, an empty
vote store, and one foreign vote row belonging to another poll. -/
theorem get_stats_no_votes_witness :
    (get_stats pollAnon [ch2, ch0, ch1] [Vote.mk 2 99 "u" 0]).votes = 0 ∧
    ∀ x ∈ (get_stats pollAnon [ch2, ch0, ch1] [Vote.mk 2 99 "u" 0]).values, x = 0 :=
  get_stats_no_votes pollAnon [ch2, ch0, ch1] [Vote.mk 2 99 "u" 0] (by decide)
